import Mathlib

/-!
Shallow embedding of the api_sensitive_scan scanner (src/function/error.rs,
report.rs, config.rs, scanner.rs).  Pure data and control flow are translated
directly; the filesystem and the HTTP transport are abstracted as explicit
inputs (file contents as `Option`/`FileState` values, the transport as a
function from the built request to an optional response).  `buffer_unordered`
completion order is modelled as sequential input order: the properties proved
below (membership, counts, per-response routing) are order-independent.
-/

/-- Rust `str::trim`: drop leading and trailing whitespace (structural
recursion over the character list, so that concrete instances evaluate). -/
def trimChars (s : String) : String :=
  ⟨((s.data.dropWhile Char.isWhitespace).reverse.dropWhile Char.isWhitespace).reverse⟩

/-- Helper for `splitOnChar`: accumulate the current piece (reversed). -/
def splitOnCharAux (sep : Char) : List Char → List Char → List String
  | [], acc => [⟨acc.reverse⟩]
  | c :: cs, acc =>
    if c == sep then ⟨acc.reverse⟩ :: splitOnCharAux sep cs []
    else splitOnCharAux sep cs (c :: acc)

/-- Rust `str::split(sep)` for a one-character separator: n separators give
n+1 pieces, empty pieces kept.  Combined with trimming and dropping empty
pieces this also models `str::lines` for `sep = '\n'`. -/
def splitOnChar (sep : Char) (s : String) : List String := splitOnCharAux sep s.data []

/-- Rust `str::starts_with`. -/
def strStartsWith (s pre : String) : Bool := pre.data.isPrefixOf s.data

/-- Rust `str::trim_end_matches('/')`: drop every trailing slash. -/
def trimEndSlashes (s : String) : String :=
  ⟨(s.data.reverse.dropWhile (fun c => c == '/')).reverse⟩

/-- Embedded from src/function/error.rs: the `ScanError` enum (payload kept). -/
inductive ScanError where
  | InvalidConfig (msg : String)
  | NetworkError (msg : String)
  | IOError (msg : String)
  | ParseError (msg : String)
  | ReportError (msg : String)
  | RequestFailed (msg : String)
  | ClientError (msg : String)
  | SerializationError (msg : String)
deriving DecidableEq

/-- Embedded from src/function/report.rs: `ScanResult`.  `u16`/`usize`/`u64`
fields become `Nat` (the scanner only ever stores small in-range values). -/
structure ScanResult where
  path : String
  url : String
  status_code : Nat
  content_length : Nat
  response_time : Nat
  found : Bool
deriving DecidableEq

/-- Modelled from the spec: `src/function/vulnerability.rs` (the
`SensitiveInfoDetector` module) is not under src/; per spec §3 a finding
carries the URL, an information-type label and an integer risk score. -/
structure SensitiveInfoFinding where
  url : String
  info_type : String
  risk_score : Nat
deriving DecidableEq

/-- Embedded from src/function/scanner.rs lines 26-30: `ScanConfig`. -/
structure ScanConfig where
  target : String
  paths_scanned : Nat
deriving DecidableEq

/-- Embedded from src/function/scanner.rs lines 14-24: `ComprehensiveScanReport`. -/
structure ComprehensiveScanReport where
  basic_results : List ScanResult
  sensitive_findings : List SensitiveInfoFinding
  scan_timestamp : String
  scan_duration : Nat
  scan_config : ScanConfig
  error_count : Nat
  forbidden_urls : List String
deriving DecidableEq

/-- An HTTP response as the scanner observes it: status code and body text. -/
structure HttpResponse where
  status : Nat
  body : String
deriving DecidableEq

/-- The request the scanner hands to the transport: method, URL and the
explicitly set header list, in the order the source sets them. -/
structure HttpRequest where
  method : String
  url : String
  headers : List (String × String)
deriving DecidableEq

/-- reqwest `StatusCode::is_success`: 200 ≤ s ≤ 299. -/
def is_success_status (s : Nat) : Bool := 200 ≤ s && s < 300

/-- Embedded from scanner.rs lines 270-274: URL resolution
(`target.trim_end_matches('/')` then join, respecting a leading `/`). -/
def build_url (target path : String) : String :=
  let t := trimEndSlashes target
  if strStartsWith path "/" then t ++ path else t ++ "/" ++ path

/-- Embedded from scanner.rs lines 280-287: the per-path GET request with the
exact header set the source sets (note: no Accept-Encoding header here,
unlike the validator probe's header set). -/
def build_scan_request (ua : String) (auth_token : Option String) (url : String) : HttpRequest :=
  { method := "GET"
    url := url
    headers :=
      [("User-Agent", ua),
       ("Authorization", "Bearer " ++ auth_token.getD ""),
       ("Accept-Language", "zh-CN,zh;q=0.9,en;q=0.8"),
       ("Connection", "keep-alive"),
       ("Accept", "text/html,application/xhtml+xml,application/xml;q=0.9,image/avif,image/webp,*/*;q=0.8")] }

/-- Lookup of a header value by name in a built request. -/
def header_value (req : HttpRequest) (name : String) : Option String :=
  (req.headers.find? (fun h => h.1 == name)).map (fun h => h.2)

/-- Outcome of one validator probe: a response status, or a transport error. -/
inductive ProbeResult where
  | ok (status : Nat)
  | err
deriving DecidableEq

/-- Embedded from scanner.rs lines 80-94: a probe counts as a success exactly
when it returns a response with `status().is_success()`. -/
def probe_is_success : ProbeResult → Bool
  | .ok s => is_success_status s
  | .err => false

/-- Embedded from scanner.rs lines 51-95: the validator loop.  The rotating
`VecDeque` plus `retry_count < max_retries` bound is modelled as fuel
(`max_retries`, the pool's initial size), rotating the queue on every
attempt.  Returns the accepted UA (if any) and the list of probed UAs. -/
def ua_probe_rounds (probe : String → ProbeResult) :
    List String → Nat → Option String × List String
  | _, 0 => (none, [])
  | [], _ + 1 => (none, [])
  | ua :: rest, fuel + 1 =>
    if probe_is_success (probe ua) then (some ua, [ua])
    else
      let r := ua_probe_rounds probe (rest ++ [ua]) fuel
      (r.1, ua :: r.2)

/-- Embedded from scanner.rs line 98: the error returned when every UA failed. -/
def allExhaustedError : ScanError := .RequestFailed "所有UA尝试均失败"

/-- The validator loop over a pool: fuel is the pool's initial size
(scanner.rs lines 55-58); exhaustion yields `allExhaustedError`
(scanner.rs lines 97-99).  Second component: the list of probed UAs. -/
def ua_probe_loop (probe : String → ProbeResult) (pool : List String) :
    Except ScanError String × List String :=
  let r := ua_probe_rounds probe pool pool.length
  match r.1 with
  | some ua => (.ok ua, r.2)
  | none => (.error allExhaustedError, r.2)

/-- Linear first-success scan over a list; proof-side reformulation of the
rotating loop (the rotation never reaches re-enqueued items). -/
def first_success_scan (probe : String → ProbeResult) :
    List String → Option String × List String
  | [] => (none, [])
  | ua :: rest =>
    if probe_is_success (probe ua) then (some ua, [ua])
    else
      let r := first_success_scan probe rest
      (r.1, ua :: r.2)

/-- Embedded from src/function/config.rs: the `Config` fields the validator
and path loader observe.  The filesystem is abstracted: `dictionary_exists`
is `dictionary.exists()`, `ua_file` is `none` when the UA file does not
exist and `some contents` otherwise. -/
structure Config where
  target : String
  dictionary_exists : Bool
  concurrency : Nat
  timeout : Nat
  proxy : Option String
  auth_token : Option String
  ua_file : Option String
deriving DecidableEq

/-- Embedded from config.rs lines 90-96: the UA-file checks at the end of
`Config::validate` (existence, then zero-byte metadata length). -/
def Config.validateUAFile (c : Config) : Except ScanError Unit :=
  match c.ua_file with
  | none => .error (.InvalidConfig "UA文件不存在。")
  | some content =>
    if content.utf8ByteSize == 0 then .error (.InvalidConfig "UA文件不能为空.")
    else .ok ()

/-- Embedded from config.rs lines 83-88: the proxy check, then the UA checks. -/
def Config.validateProxyUA (c : Config) : Except ScanError Unit :=
  match c.proxy with
  | some proxy =>
    if !(strStartsWith proxy "http://" || strStartsWith proxy "https://") then
      .error (.InvalidConfig "代理URL必须以http://或https://开头")
    else c.validateUAFile
  | none => c.validateUAFile

/-- Embedded from config.rs lines 54-99: `Config::validate` — sequential
early-return checks (target scheme, dictionary existence, concurrency range,
token shape, proxy scheme, UA file). -/
def Config.validate (c : Config) : Except ScanError Unit :=
  if !(strStartsWith c.target "http://" || strStartsWith c.target "https://") then
    .error (.InvalidConfig "请输入正确的URL")
  else if !c.dictionary_exists then
    .error (.InvalidConfig "字典文件不存在。")
  else if c.concurrency == 0 || 100 < c.concurrency then
    .error (.InvalidConfig "并发数区间为1~100。")
  else match c.auth_token with
    | some token =>
      if (trimChars token).isEmpty then .error (.InvalidConfig "认证令牌不能为空。")
      else if token.data.contains '.' && (splitOnChar '.' token).length != 3 then
        .error (.InvalidConfig "JWT令牌格式无效。")
      else c.validateProxyUA
    | none => c.validateProxyUA

/-- All `Config::validate` checks that precede the UA-file checks pass. -/
def pre_ua_checks_pass (c : Config) : Bool :=
  (strStartsWith c.target "http://" || strStartsWith c.target "https://") &&
  c.dictionary_exists &&
  !(c.concurrency == 0 || 100 < c.concurrency) &&
  (match c.auth_token with
   | some token =>
     !(trimChars token).isEmpty &&
     !(token.data.contains '.' && (splitOnChar '.' token).length != 3)
   | none => true) &&
  (match c.proxy with
   | some proxy => strStartsWith proxy "http://" || strStartsWith proxy "https://"
   | none => true)

/-- Embedded from scanner.rs lines 44-49: the UA pool parsed from the file —
lines, trimmed, empty lines dropped. -/
def parse_ua_pool (content : String) : List String :=
  ((splitOnChar '\n' content).map trimChars).filter (fun ua => !ua.isEmpty)

/-- Embedded from scanner.rs lines 32-102: `valid_ua` — validate the config,
read and parse the UA file, run the probe loop.  Second component: the list
of probes actually issued (empty on every pre-loop failure path). -/
def valid_ua (probe : String → ProbeResult) (c : Config) :
    Except ScanError String × List String :=
  match c.validate with
  | .error e => (.error e, [])
  | .ok _ =>
    match c.ua_file with
    | none => (.error (.InvalidConfig "无法读取UA文件"), [])
    | some content => ua_probe_loop probe (parse_ua_pool content)

/-- State of a configured-but-optional auxiliary path file, abstracting the
filesystem: not configured, configured but `exists()` is false, configured
and existing but unreadable, or readable with the given lines. -/
inductive FileState where
  | absent
  | missing
  | unreadable
  | readable (lines : List String)
deriving DecidableEq

/-- Lines of a file as the loader keeps them: trimmed, empty lines dropped
(scanner.rs lines 180-182 and the identical treatment of the two optional
files). -/
def cleanLines (lines : List String) : List String :=
  (lines.map trimChars).filter (fun p => !p.isEmpty)

/-- Final step of `load_paths` (scanner.rs lines 213-218): reject an empty
effective path list, otherwise return it. -/
def load_paths_final (paths : List String) : Except ScanError (List String) :=
  if paths.isEmpty then .error (.InvalidConfig "路径列表为空")
  else .ok paths

/-- Exclude-file step of `load_paths` (scanner.rs lines 199-211): when the
configured file exists, drop every path contained in it by exact string
match (`retain`/`contains`); an existing but unreadable file is an I/O
error; a missing or unconfigured file changes nothing. -/
def load_paths_exclude (paths : List String) (exc : FileState) :
    Except ScanError (List String) :=
  match exc with
  | .unreadable => .error (.IOError "无法读取排除路径文件")
  | .readable ls => load_paths_final (paths.filter (fun p => !(cleanLines ls).contains p))
  | _ => load_paths_final paths

/-- Embedded from scanner.rs lines 176-219: `load_paths`.  `dict` is the raw
line list of the dictionary file (`none` when the read fails); `inc`/`exc`
are the optional include/exclude files.  Dictionary read failure is an
IOError; include lines are appended when that file exists; then the exclude
step and the final non-emptiness check run. -/
def load_paths (dict : Option (List String)) (inc exc : FileState) :
    Except ScanError (List String) :=
  match dict with
  | none => .error (.IOError "无法读取字典文件")
  | some dictLines =>
    let paths := cleanLines dictLines
    match inc with
    | .unreadable => .error (.IOError "无法读取包含路径文件")
    | .readable ls => load_paths_exclude (paths ++ cleanLines ls) exc
    | _ => load_paths_exclude paths exc

/-- The lines an optional file contributes once loaded (empty unless readable). -/
def contributed_lines : FileState → List String
  | .readable ls => cleanLines ls
  | _ => []

/-- The mutable aggregate state of `comprehensive_scan` (scanner.rs lines
244-249): kept results, findings, the 5xx counter, the forbidden-URL list. -/
structure ScanState where
  basic_results : List ScanResult
  sensitive_findings : List SensitiveInfoFinding
  error_count : Nat
  forbidden_urls : List String
deriving DecidableEq

/-- The empty initial aggregate (scanner.rs lines 245-249). -/
def init_scan_state : ScanState := ⟨[], [], 0, []⟩

/-- Embedded from scanner.rs lines 265-378: the per-path unit of work plus
the aggregation of its outcome.  `transport` maps the built request to
`none` (transport error, scanner.rs lines 354-358) or a response with its
elapsed time.  Status routing mirrors lines 294-352; the 403 arm computes
the URL but the push into `forbidden_urls` is commented out in the source
(lines 302-303), so the state is returned unchanged there. -/
def scan_step (detector : String → String → List SensitiveInfoFinding)
    (transport : HttpRequest → Option (HttpResponse × Nat))
    (ua : String) (auth_token : Option String) (target : String)
    (st : ScanState) (path : String) : ScanState :=
  let url := build_url target path
  match transport (build_scan_request ua auth_token url) with
  | none => st
  | some (resp, response_time) =>
    let s := resp.status
    if s = 404 then st
    else if s = 403 then st
    else if 500 ≤ s ∧ s ≤ 599 then
      { st with error_count := st.error_count + 1 }
    else if s = 200 then
      let body := resp.body
      let findings := detector url body
      if findings.isEmpty then st
      else
        { st with
          basic_results := st.basic_results ++
            [{ path := path, url := url, status_code := s,
               content_length := body.utf8ByteSize,
               response_time := response_time, found := true }],
          sensitive_findings := st.sensitive_findings ++ findings }
    else
      let body := resp.body
      let findings := detector url body
      { st with
        basic_results := st.basic_results ++
          [{ path := path, url := url, status_code := s,
             content_length := body.utf8ByteSize,
             response_time := response_time, found := is_success_status s }],
        sensitive_findings := st.sensitive_findings ++ findings }

/-- Embedded from scanner.rs lines 221-404: `comprehensive_scan` over a path
list, folding the per-path unit of work into the aggregate state. -/
def comprehensive_scan (detector : String → String → List SensitiveInfoFinding)
    (transport : HttpRequest → Option (HttpResponse × Nat))
    (ua : String) (auth_token : Option String) (target : String)
    (paths : List String) : ScanState :=
  paths.foldl (scan_step detector transport ua auth_token target) init_scan_state

/-- Embedded from scanner.rs lines 390-401: assembling the final report from
the aggregate state (timestamp and duration are environment inputs). -/
def mk_comprehensive_report (st : ScanState) (timestamp : String) (duration : Nat)
    (target : String) (paths : List String) : ComprehensiveScanReport :=
  { basic_results := st.basic_results
    sensitive_findings := st.sensitive_findings
    scan_timestamp := timestamp
    scan_duration := duration
    scan_config := { target := target, paths_scanned := paths.length }
    error_count := st.error_count
    forbidden_urls := st.forbidden_urls }

/-- Whether a validator outcome is a configuration error (`InvalidConfig`). -/
def is_invalid_config_result (r : Except ScanError String × List String) : Bool :=
  match r.1 with
  | .error (.InvalidConfig _) => true
  | _ => false

/-- Whether a transport outcome is a 5xx response. -/
def is_server_error (o : Option (HttpResponse × Nat)) : Bool :=
  match o with
  | some (resp, _) => decide (500 ≤ resp.status ∧ resp.status ≤ 599)
  | none => false

/-- A JSON value, modelling the serde_json data model as the report uses it
(strings, non-negative integers, booleans, arrays, objects). -/
inductive JVal where
  | jstr (s : String)
  | jnum (n : Nat)
  | jbool (b : Bool)
  | jarr (xs : List JVal)
  | jobj (fields : List (String × JVal))

/-- Field lookup in a JSON object, first occurrence wins (serde reads fields
by name). -/
def jget (fields : List (String × JVal)) (name : String) : Option JVal :=
  match fields with
  | [] => none
  | (k, v) :: rest => if k == name then some v else jget rest name

/-- Projection to a JSON string. -/
def jstr? : JVal → Option String
  | .jstr s => some s
  | _ => none

/-- Projection to a JSON number. -/
def jnum? : JVal → Option Nat
  | .jnum n => some n
  | _ => none

/-- Projection to a JSON boolean. -/
def jbool? : JVal → Option Bool
  | .jbool b => some b
  | _ => none

/-- Projection to a JSON object's field list. -/
def jobj? : JVal → Option (List (String × JVal))
  | .jobj fs => some fs
  | _ => none

/-- Projection to a JSON array. -/
def jarr? : JVal → Option (List JVal)
  | .jarr xs => some xs
  | _ => none

/-- Serialize a list elementwise into a JSON array (serde `Vec<T>`). -/
def listToJson (f : α → JVal) (xs : List α) : JVal := .jarr (xs.map f)

/-- Deserialize a JSON array elementwise (serde `Vec<T>`), failing if any
element fails. -/
def listFromJson (f : JVal → Option α) : List JVal → Option (List α)
  | [] => some []
  | x :: xs =>
    match f x, listFromJson f xs with
    | some a, some rest => some (a :: rest)
    | _, _ => none

/-- serde `Serialize` for `ScanResult` (derived: object keyed by field name). -/
def scanResultToJson (r : ScanResult) : JVal :=
  .jobj [("path", .jstr r.path), ("url", .jstr r.url),
         ("status_code", .jnum r.status_code),
         ("content_length", .jnum r.content_length),
         ("response_time", .jnum r.response_time),
         ("found", .jbool r.found)]

/-- serde `Deserialize` for `ScanResult` (derived: fields read by name). -/
def scanResultFromJson (j : JVal) : Option ScanResult := do
  let fields ← jobj? j
  let path ← jget fields "path" >>= jstr?
  let url ← jget fields "url" >>= jstr?
  let status_code ← jget fields "status_code" >>= jnum?
  let content_length ← jget fields "content_length" >>= jnum?
  let response_time ← jget fields "response_time" >>= jnum?
  let found ← jget fields "found" >>= jbool?
  pure { path := path, url := url, status_code := status_code,
         content_length := content_length, response_time := response_time,
         found := found }

/-- serde `Serialize` for `SensitiveInfoFinding`. -/
def findingToJson (f : SensitiveInfoFinding) : JVal :=
  .jobj [("url", .jstr f.url), ("info_type", .jstr f.info_type),
         ("risk_score", .jnum f.risk_score)]

/-- serde `Deserialize` for `SensitiveInfoFinding`. -/
def findingFromJson (j : JVal) : Option SensitiveInfoFinding := do
  let fields ← jobj? j
  let url ← jget fields "url" >>= jstr?
  let info_type ← jget fields "info_type" >>= jstr?
  let risk_score ← jget fields "risk_score" >>= jnum?
  pure { url := url, info_type := info_type, risk_score := risk_score }

/-- serde `Serialize` for `ScanConfig`. -/
def scanConfigToJson (c : ScanConfig) : JVal :=
  .jobj [("target", .jstr c.target), ("paths_scanned", .jnum c.paths_scanned)]

/-- serde `Deserialize` for `ScanConfig`. -/
def scanConfigFromJson (j : JVal) : Option ScanConfig := do
  let fields ← jobj? j
  let target ← jget fields "target" >>= jstr?
  let paths_scanned ← jget fields "paths_scanned" >>= jnum?
  pure { target := target, paths_scanned := paths_scanned }

/-- serde `Serialize` for `ComprehensiveScanReport`. -/
def reportToJson (r : ComprehensiveScanReport) : JVal :=
  .jobj [("basic_results", listToJson scanResultToJson r.basic_results),
         ("sensitive_findings", listToJson findingToJson r.sensitive_findings),
         ("scan_timestamp", .jstr r.scan_timestamp),
         ("scan_duration", .jnum r.scan_duration),
         ("scan_config", scanConfigToJson r.scan_config),
         ("error_count", .jnum r.error_count),
         ("forbidden_urls", listToJson JVal.jstr r.forbidden_urls)]

/-- serde `Deserialize` for `ComprehensiveScanReport`. -/
def reportFromJson (j : JVal) : Option ComprehensiveScanReport := do
  let fields ← jobj? j
  let basicJson ← jget fields "basic_results" >>= jarr?
  let basic_results ← listFromJson scanResultFromJson basicJson
  let findingsJson ← jget fields "sensitive_findings" >>= jarr?
  let sensitive_findings ← listFromJson findingFromJson findingsJson
  let scan_timestamp ← jget fields "scan_timestamp" >>= jstr?
  let scan_duration ← jget fields "scan_duration" >>= jnum?
  let scan_config ← jget fields "scan_config" >>= scanConfigFromJson
  let error_count ← jget fields "error_count" >>= jnum?
  let forbiddenJson ← jget fields "forbidden_urls" >>= jarr?
  let forbidden_urls ← listFromJson jstr? forbiddenJson
  pure { basic_results := basic_results, sensitive_findings := sensitive_findings,
         scan_timestamp := scan_timestamp, scan_duration := scan_duration,
         scan_config := scan_config, error_count := error_count,
         forbidden_urls := forbidden_urls }

/-! ## Theorems -/

/-- C1: for a response with HTTP status 403 the path is indeed discarded
(no result entry), but — contrary to the claim and to the source's own
comment at scanner.rs line 300 — the resolved URL is NOT recorded in the
report's forbidden-URL collection: the push (scanner.rs lines 302-303) is
commented out, so a scan whose only path answers 403 ends with an empty
`forbidden_urls` list. -/
theorem forbidden_url_not_recorded_on_403 :
    (comprehensive_scan (fun _ _ => []) (fun _ => some ({ status := 403, body := "" }, 5))
      "test-ua" none "https://example.com" ["admin"]).forbidden_urls = [] ∧
    (comprehensive_scan (fun _ _ => []) (fun _ => some ({ status := 403, body := "" }, 5))
      "test-ua" none "https://example.com" ["admin"]).basic_results = [] :=
  ⟨rfl, rfl⟩

/-- C4 counterexample: the per-path scan request carries no Accept-Encoding
header (scanner.rs lines 280-287 set only User-Agent, Authorization,
Accept-Language, Connection and Accept), so the claimed header set is not
the one sent. -/
theorem scan_request_lacks_accept_encoding :
    header_value (build_scan_request "test-ua" none "https://example.com/admin")
      "Accept-Encoding" = none ∧
    "Accept-Encoding" ∉
      (build_scan_request "test-ua" none "https://example.com/admin").headers.map Prod.fst := by
  exact ⟨rfl, by decide⟩

/-- C4 (amended): every per-path scan request is a GET carrying exactly the
headers User-Agent (the validated UA), Authorization: "Bearer <token>"
(empty-string token when none is configured), Accept-Language,
Connection: keep-alive and Accept — and no Accept-Encoding header. -/
theorem scan_request_headers (ua : String) (tok : Option String) (url : String) :
    (build_scan_request ua tok url).method = "GET" ∧
    (build_scan_request ua tok url).url = url ∧
    (build_scan_request ua tok url).headers.map Prod.fst =
      ["User-Agent", "Authorization", "Accept-Language", "Connection", "Accept"] ∧
    header_value (build_scan_request ua tok url) "User-Agent" = some ua ∧
    header_value (build_scan_request ua tok url) "Authorization" =
      some ("Bearer " ++ tok.getD "") ∧
    header_value (build_scan_request ua tok url) "Connection" = some "keep-alive" ∧
    header_value (build_scan_request ua tok url) "Accept-Encoding" = none :=
  ⟨rfl, rfl, rfl, rfl, rfl, rfl, rfl⟩

/-- C10: a configured include- or exclude-paths file that does not exist on
disk is silently skipped (loading behaves exactly as if the file were not
configured), while an unreadable dictionary file aborts path loading with
an I/O error. -/
theorem load_paths_missing_optional_files (d : Option (List String)) (inc exc : FileState) :
    (∀ e : FileState, load_paths d .missing e = load_paths d .absent e) ∧
    (∀ i : FileState, load_paths d i .missing = load_paths d i .absent) ∧
    load_paths none inc exc = .error (.IOError "无法读取字典文件") := by
  refine ⟨fun e => ?_, fun i => ?_, rfl⟩
  · cases d <;> rfl
  · cases d <;> cases i <;> rfl

/-- If the final `load_paths` guard returns a list, it is the list it was
given. -/
theorem load_paths_final_ok {paths ps : List String}
    (h : load_paths_final paths = .ok ps) : ps = paths := by
  unfold load_paths_final at h
  split at h
  · cases h
  · cases h; rfl

/-- Counting occurrences after the exclude filter: zero for excluded
strings, unchanged for the rest. -/
theorem count_filter_not_contains (ex l : List String) (s : String) :
    (l.filter (fun p => !ex.contains p)).count s =
      if ex.contains s then 0 else l.count s := by
  split
  · next hc =>
    refine List.count_eq_zero.mpr ?_
    intro hmem
    have hp := (List.mem_filter.mp hmem).2
    simp at hc
    simp [hc] at hp
  · next hc =>
    refine List.count_filter ?_
    simp [Bool.not_eq_true] at hc
    simp [hc]

/-- C6: the effective scanned path list equals the dictionary paths plus the
include-file paths (union by concatenation, duplicates kept), minus every
path equal by exact string match to some exclude-file path — stated via
per-string occurrence counts. -/
theorem load_paths_effective_paths (dictLines : List String) (inc exc : FileState)
    (ps : List String) (h : load_paths (some dictLines) inc exc = .ok ps) (s : String) :
    ps.count s =
      if (contributed_lines exc).contains s then 0
      else (cleanLines dictLines).count s + (contributed_lines inc).count s := by
  cases inc <;> cases exc <;>
    simp only [load_paths, load_paths_exclude, contributed_lines] at h ⊢ <;>
    try cases h
  all_goals
    obtain rfl := load_paths_final_ok h
    try rw [count_filter_not_contains]
    simp [List.count_append]

/-- Witness for C6 at a concrete dictionary/include/exclude triple. -/
theorem load_paths_effective_paths_witness :
    load_paths (some ["a", "b", "a"]) (.readable ["b", "c"]) (.readable ["b"]) =
      .ok ["a", "a", "c"] ∧
    (["a", "a", "c"] : List String).count "a" = 2 := by
  have h : load_paths (some ["a", "b", "a"]) (.readable ["b", "c"]) (.readable ["b"]) =
      .ok ["a", "a", "c"] := rfl
  refine ⟨h, ?_⟩
  have h2 := load_paths_effective_paths ["a", "b", "a"] (.readable ["b", "c"])
    (.readable ["b"]) ["a", "a", "c"] h "a"
  exact h2.trans (by decide)

/-- The per-path step changes the 5xx counter by exactly one on a 5xx
response and leaves it unchanged otherwise. -/
theorem scan_step_error_count (detector : String → String → List SensitiveInfoFinding)
    (transport : HttpRequest → Option (HttpResponse × Nat))
    (ua : String) (tok : Option String) (target : String) (st : ScanState) (p : String) :
    (scan_step detector transport ua tok target st p).error_count =
      st.error_count +
        (if is_server_error (transport (build_scan_request ua tok (build_url target p)))
         then 1 else 0) := by
  simp only [scan_step, is_server_error]
  cases transport (build_scan_request ua tok (build_url target p)) with
  | none => simp
  | some v =>
    obtain ⟨resp, rt⟩ := v
    simp only [decide_eq_true_eq]
    split_ifs <;> simp_all

/-- Any result the per-path step appends has a non-5xx status code. -/
theorem scan_step_basic_results (detector : String → String → List SensitiveInfoFinding)
    (transport : HttpRequest → Option (HttpResponse × Nat))
    (ua : String) (tok : Option String) (target : String) (st : ScanState) (p : String) :
    ∀ r ∈ (scan_step detector transport ua tok target st p).basic_results,
      r ∈ st.basic_results ∨ ¬(500 ≤ r.status_code ∧ r.status_code ≤ 599) := by
  intro r hr
  simp only [scan_step] at hr
  rcases htr : transport (build_scan_request ua tok (build_url target p)) with _ | ⟨resp, rt⟩ <;>
    rw [htr] at hr
  · exact Or.inl hr
  · simp only at hr
    split_ifs at hr <;>
      first
        | exact Or.inl hr
        | (simp only [List.mem_append, List.mem_singleton] at hr
           rcases hr with hr | hr
           · exact Or.inl hr
           · subst hr
             refine Or.inr ?_
             simpa using ‹¬(500 ≤ resp.status ∧ resp.status ≤ 599)›)

/-- Folding the step over any path list adds exactly the number of 5xx
responses to the counter. -/
theorem scan_foldl_error_count (detector : String → String → List SensitiveInfoFinding)
    (transport : HttpRequest → Option (HttpResponse × Nat))
    (ua : String) (tok : Option String) (target : String) :
    ∀ (paths : List String) (st : ScanState),
      ((paths.foldl (scan_step detector transport ua tok target) st)).error_count =
        st.error_count + paths.countP
          (fun p => is_server_error (transport (build_scan_request ua tok (build_url target p)))) := by
  intro paths
  induction paths with
  | nil => intro st; simp
  | cons p ps ih =>
    intro st
    simp only [List.foldl_cons, List.countP_cons, ih, scan_step_error_count]
    omega

/-- Folding the step preserves the non-5xx bound on kept results. -/
theorem scan_foldl_basic_results (detector : String → String → List SensitiveInfoFinding)
    (transport : HttpRequest → Option (HttpResponse × Nat))
    (ua : String) (tok : Option String) (target : String) :
    ∀ (paths : List String) (st : ScanState),
      (∀ r ∈ st.basic_results, ¬(500 ≤ r.status_code ∧ r.status_code ≤ 599)) →
      ∀ r ∈ (paths.foldl (scan_step detector transport ua tok target) st).basic_results,
        ¬(500 ≤ r.status_code ∧ r.status_code ≤ 599) := by
  intro paths
  induction paths with
  | nil => intro st hst; exact hst
  | cons p ps ih =>
    intro st hst
    refine ih _ (fun r hr => ?_)
    rcases scan_step_basic_results detector transport ua tok target st p r hr with hmem | hok
    · exact hst r hmem
    · exact hok

/-- C5: the final report's 5xx counter equals the number of 5xx responses
(one increment per such response, no change for any other status), and no
result entry is kept for a 5xx path. -/
theorem scan_5xx_counter (detector : String → String → List SensitiveInfoFinding)
    (transport : HttpRequest → Option (HttpResponse × Nat))
    (ua : String) (tok : Option String) (target : String) (paths : List String) :
    (comprehensive_scan detector transport ua tok target paths).error_count =
      paths.countP
        (fun p => is_server_error (transport (build_scan_request ua tok (build_url target p)))) ∧
    ∀ r ∈ (comprehensive_scan detector transport ua tok target paths).basic_results,
      ¬(500 ≤ r.status_code ∧ r.status_code ≤ 599) := by
  constructor
  · have h := scan_foldl_error_count detector transport ua tok target paths init_scan_state
    simpa [comprehensive_scan, init_scan_state] using h
  · exact scan_foldl_basic_results detector transport ua tok target paths init_scan_state
      (by simp [init_scan_state])

/-- Witness for C5: a concrete scan whose single path answers 201. -/
theorem scan_5xx_counter_witness :
    (comprehensive_scan (fun _ _ => []) (fun _ => some ({ status := 201, body := "hello" }, 7))
      "ua" none "https://t" ["a"]).error_count = 0 ∧
    ¬(500 ≤ 201 ∧ 201 ≤ 599) := by
  constructor
  · exact (scan_5xx_counter (fun _ _ => []) (fun _ => some ({ status := 201, body := "hello" }, 7))
      "ua" none "https://t" ["a"]).1.trans (by decide)
  · exact (scan_5xx_counter (fun _ _ => []) (fun _ => some ({ status := 201, body := "hello" }, 7))
      "ua" none "https://t" ["a"]).2
      { path := "a", url := build_url "https://t" "a", status_code := 201,
        content_length := 5, response_time := 7, found := true } (by decide)

/-- C3: for a status-200 response, a result entry is kept if and only if the
detector returns at least one finding for the body, and the kept entry has
`found = true` (scanner.rs lines 312-334). -/
theorem scan_step_200_keeps_iff (detector : String → String → List SensitiveInfoFinding)
    (transport : HttpRequest → Option (HttpResponse × Nat))
    (ua : String) (tok : Option String) (target : String) (st : ScanState)
    (p : String) (resp : HttpResponse) (rt : Nat)
    (htr : transport (build_scan_request ua tok (build_url target p)) = some (resp, rt))
    (h200 : resp.status = 200) :
    (detector (build_url target p) resp.body = [] →
      scan_step detector transport ua tok target st p = st) ∧
    (detector (build_url target p) resp.body ≠ [] →
      (scan_step detector transport ua tok target st p).basic_results =
        st.basic_results ++
          [{ path := p, url := build_url target p, status_code := 200,
             content_length := resp.body.utf8ByteSize, response_time := rt,
             found := true }] ∧
      (scan_step detector transport ua tok target st p).sensitive_findings =
        st.sensitive_findings ++ detector (build_url target p) resp.body) := by
  constructor
  · intro hdet
    simp [scan_step, htr, h200, hdet]
  · intro hdet
    obtain ⟨f, fs, hcons⟩ := List.exists_cons_of_ne_nil hdet
    simp [scan_step, htr, h200, hcons]

/-- Witness for C3: a 200 response whose body yields one finding is kept
with `found = true`. -/
theorem scan_step_200_keeps_iff_witness :
    (scan_step (fun u _ => [{ url := u, info_type := "credential", risk_score := 9 }])
        (fun _ => some ({ status := 200, body := "k" }, 3))
        "ua" none "https://t" init_scan_state "p").basic_results =
      [{ path := "p", url := build_url "https://t" "p", status_code := 200,
         content_length := 1, response_time := 3, found := true }] := by
  have h := (scan_step_200_keeps_iff
    (fun u _ => [{ url := u, info_type := "credential", risk_score := 9 }])
    (fun _ => some ({ status := 200, body := "k" }, 3)) "ua" none "https://t"
    init_scan_state "p" { status := 200, body := "k" } 3 rfl rfl).2 (by simp)
  exact h.1.trans (by decide)

/-- The rotating bounded-attempts loop never reaches a re-enqueued item, so
with fuel at most the queue length it equals a linear first-success scan of
the first `fuel` entries. -/
theorem ua_probe_rounds_eq_scan (probe : String → ProbeResult) :
    ∀ (fuel : Nat) (qs : List String), fuel ≤ qs.length →
      ua_probe_rounds probe qs fuel = first_success_scan probe (qs.take fuel) := by
  intro fuel
  induction fuel with
  | zero => intro qs h; simp [ua_probe_rounds, first_success_scan]
  | succ n ih =>
    intro qs h
    cases qs with
    | nil => simp at h
    | cons ua rest =>
      by_cases hs : probe_is_success (probe ua)
      · simp [ua_probe_rounds, first_success_scan, hs, List.take_succ_cons]
      · have hle : n ≤ rest.length := Nat.le_of_succ_le_succ h
        have hle' : n ≤ (rest ++ [ua]).length := by simp; omega
        have hrec := ih (rest ++ [ua]) hle'
        rw [List.take_append_of_le_length hle] at hrec
        simp [ua_probe_rounds, first_success_scan, hs, hrec, List.take_succ_cons]

/-- A linear scan that first succeeds at position `k` returns that entry
after probing exactly the first `k+1` entries. -/
theorem first_success_scan_success (probe : String → ProbeResult) :
    ∀ (pool : List String) (k : Nat) (hk : k < pool.length),
      probe_is_success (probe (pool.get ⟨k, hk⟩)) = true →
      (∀ (j : Nat) (hj : j < pool.length), j < k →
        probe_is_success (probe (pool.get ⟨j, hj⟩)) = false) →
      first_success_scan probe pool = (some (pool.get ⟨k, hk⟩), pool.take (k + 1)) := by
  intro pool
  induction pool with
  | nil => intro k hk; exact absurd hk (by simp)
  | cons ua rest ih =>
    intro k hk hs hprev
    cases k with
    | zero =>
      simp [first_success_scan, List.get, List.take_succ_cons] at hs ⊢
      simp [hs]
    | succ m =>
      have h0 : probe_is_success (probe ua) = false := hprev 0 (by omega) (by omega)
      have hk' : m < rest.length := by
        have := hk
        simp only [List.length_cons] at this
        omega
      have hs' : probe_is_success (probe (rest.get ⟨m, hk'⟩)) = true := hs
      have hprev' : ∀ (j : Nat) (hj : j < rest.length), j < m →
          probe_is_success (probe (rest.get ⟨j, hj⟩)) = false := by
        intro j hj hjm
        exact hprev (j + 1) (by simp; omega) (by omega)
      have hrec := ih m hk' hs' hprev'
      simp [first_success_scan, h0, hrec, List.take_succ_cons, List.get]

/-- A linear scan with no successful entry probes everything and fails. -/
theorem first_success_scan_exhaust (probe : String → ProbeResult) :
    ∀ (pool : List String),
      (∀ (i : Nat) (hi : i < pool.length), probe_is_success (probe (pool.get ⟨i, hi⟩)) = false) →
      first_success_scan probe pool = (none, pool) := by
  intro pool
  induction pool with
  | nil => intro _; rfl
  | cons ua rest ih =>
    intro hall
    have h0 : probe_is_success (probe ua) = false := hall 0 (by simp)
    have hrec := ih (fun i hi => hall (i + 1) (by simp; omega))
    simp [first_success_scan, h0, hrec]

/-- C2: if the first 2xx probe success over the pool is at 0-indexed
position k, the validator loop performs exactly the probes for positions
0..k (k+1 probes) and returns that UA; if no UA ever yields a 2xx response
it probes every pool entry exactly once (the whole pool, in order) and
fails with the all-exhausted error. -/
theorem ua_validation_probe_count (probe : String → ProbeResult) (pool : List String) :
    (∀ k : Fin pool.length,
      probe_is_success (probe (pool.get k)) = true →
      (∀ j : Fin pool.length, (j : Nat) < (k : Nat) →
        probe_is_success (probe (pool.get j)) = false) →
      ua_probe_loop probe pool = (.ok (pool.get k), pool.take ((k : Nat) + 1)) ∧
        (pool.take ((k : Nat) + 1)).length = (k : Nat) + 1) ∧
    ((∀ i : Fin pool.length, probe_is_success (probe (pool.get i)) = false) →
      ua_probe_loop probe pool = (.error allExhaustedError, pool)) := by
  have hbase : ua_probe_rounds probe pool pool.length = first_success_scan probe pool := by
    have h := ua_probe_rounds_eq_scan probe pool.length pool le_rfl
    simpa [List.take_length] using h
  constructor
  · intro k hk hprev
    have hscan := first_success_scan_success probe pool k.val k.isLt hk
      (fun j hj hjk => hprev ⟨j, hj⟩ hjk)
    constructor
    · simp only [ua_probe_loop, hbase, hscan]
    · rw [List.length_take]
      have := k.isLt
      omega
  · intro hall
    have hscan := first_success_scan_exhaust probe pool (fun i hi => hall ⟨i, hi⟩)
    simp only [ua_probe_loop, hbase, hscan]

/-- Witness for C2: success at position 1 of a two-UA pool (2 probes), and
a pool where every probe fails (2 probes, all-exhausted error). -/
theorem ua_validation_probe_count_witness :
    ua_probe_loop (fun ua => if ua == "ua-two" then .ok 200 else .ok 500)
        ["ua-one", "ua-two"] = (.ok "ua-two", ["ua-one", "ua-two"]) ∧
    ua_probe_loop (fun _ => .ok 503) ["ua-one", "ua-two"] =
      (.error allExhaustedError, ["ua-one", "ua-two"]) := by
  constructor
  · exact ((ua_validation_probe_count (fun ua => if ua == "ua-two" then .ok 200 else .ok 500)
      ["ua-one", "ua-two"]).1 ⟨1, by decide⟩ (by decide) (by decide)).1
  · exact (ua_validation_probe_count (fun _ => .ok 503) ["ua-one", "ua-two"]).2 (by decide)

/-- When every check before the UA-file checks passes, `validate` reduces to
the UA-file checks. -/
theorem validate_eq_ua_file_checks (c : Config) (h : pre_ua_checks_pass c = true) :
    c.validate = c.validateUAFile := by
  simp only [pre_ua_checks_pass, Bool.and_eq_true] at h
  obtain ⟨⟨⟨⟨h1, h2⟩, h3⟩, h4⟩, h5⟩ := h
  cases hat : c.auth_token <;> cases hp : c.proxy <;>
    simp_all [Config.validate, Config.validateProxyUA] <;>
    split_ifs <;> first | rfl | omega | tauto | simp_all

/-- C7 (amended): a missing or zero-length User-Agent file is a
configuration error reported by `validate` before the probe loop, with no
probe issued; a readable, non-empty file whose lines are all blank yields an
empty pool, for which the validator still issues no probe but fails with
the all-UAs-exhausted request error instead of a configuration error. -/
theorem empty_ua_pool_behavior (probe : String → ProbeResult) (c : Config)
    (h : pre_ua_checks_pass c = true) :
    (c.ua_file = none →
      valid_ua probe c = (.error (.InvalidConfig "UA文件不存在。"), [])) ∧
    (∀ content, c.ua_file = some content → content.utf8ByteSize = 0 →
      valid_ua probe c = (.error (.InvalidConfig "UA文件不能为空."), [])) ∧
    (∀ content, c.ua_file = some content → content.utf8ByteSize ≠ 0 →
      parse_ua_pool content = [] →
      valid_ua probe c = (.error allExhaustedError, [])) := by
  have hval := validate_eq_ua_file_checks c h
  refine ⟨fun hnone => ?_, fun content hsome hsize => ?_,
    fun content hsome hsize hpool => ?_⟩
  · simp [valid_ua, hval, Config.validateUAFile, hnone]
  · simp [valid_ua, hval, Config.validateUAFile, hsome, hsize]
  · simp [valid_ua, hval, Config.validateUAFile, hsome, hsize, hpool,
      ua_probe_loop, ua_probe_rounds]

/-- C7 counterexample: a User-Agent file containing a single blank line
passes `validate` (it is non-empty on disk) but parses to an empty pool;
the validator then fails with the all-exhausted request error — not with a
configuration error as the claim states — and issues no probe. -/
theorem empty_ua_pool_not_config_error :
    valid_ua (fun _ => .ok 200)
      { target := "https://example.com", dictionary_exists := true, concurrency := 20,
        timeout := 10, proxy := none, auth_token := none, ua_file := some " " } =
      (.error (.RequestFailed "所有UA尝试均失败"), []) ∧
    is_invalid_config_result (valid_ua (fun _ => .ok 200)
      { target := "https://example.com", dictionary_exists := true, concurrency := 20,
        timeout := 10, proxy := none, auth_token := none, ua_file := some " " }) = false :=
  ⟨rfl, rfl⟩

/-- Witness for C7 (amended): the missing-file and blank-file cases at a
concrete configuration. -/
theorem empty_ua_pool_behavior_witness :
    valid_ua (fun _ => .ok 200)
      { target := "https://example.com", dictionary_exists := true, concurrency := 20,
        timeout := 10, proxy := none, auth_token := none, ua_file := none } =
      (.error (.InvalidConfig "UA文件不存在。"), []) ∧
    valid_ua (fun _ => .ok 200)
      { target := "https://example.com", dictionary_exists := true, concurrency := 20,
        timeout := 10, proxy := none, auth_token := none, ua_file := some " " } =
      (.error allExhaustedError, []) := by
  constructor
  · exact (empty_ua_pool_behavior (fun _ => .ok 200) _ (by decide)).1 rfl
  · exact (empty_ua_pool_behavior (fun _ => .ok 200) _ (by decide)).2.2 " " rfl
      (by decide) (by decide)

/-- Serialization round-trip for a single `ScanResult`. -/
theorem scanResult_roundtrip (r : ScanResult) :
    scanResultFromJson (scanResultToJson r) = some r := by
  cases r
  rfl

/-- Serialization round-trip for a single `SensitiveInfoFinding`. -/
theorem finding_roundtrip (f : SensitiveInfoFinding) :
    findingFromJson (findingToJson f) = some f := by
  cases f
  rfl

/-- Serialization round-trip for `ScanConfig`. -/
theorem scanConfig_roundtrip (c : ScanConfig) :
    scanConfigFromJson (scanConfigToJson c) = some c := by
  cases c
  rfl

/-- Elementwise round-trip lifts to JSON arrays. -/
theorem listFromJson_roundtrip (f : JVal → Option α) (g : α → JVal)
    (hf : ∀ x, f (g x) = some x) : ∀ xs : List α, listFromJson f (xs.map g) = some xs := by
  intro xs
  induction xs with
  | nil => rfl
  | cons x xs ih => simp [listFromJson, hf, ih]

/-- C9: serializing a `ComprehensiveScanReport` to JSON and deserializing
the JSON back yields a report equal in every field to the original. -/
theorem report_json_roundtrip (r : ComprehensiveScanReport) :
    reportFromJson (reportToJson r) = some r := by
  cases r with
  | mk br sf ts dur cfg ec fu =>
    simp [reportToJson, reportFromJson, listToJson, jobj?, jget, jarr?, jstr?, jnum?,
      scanConfig_roundtrip,
      listFromJson_roundtrip _ _ scanResult_roundtrip,
      listFromJson_roundtrip _ _ finding_roundtrip,
      listFromJson_roundtrip jstr? JVal.jstr (fun _ => rfl)]
